import Mathlib

/-!
Shallow embedding of `src/project.py` (Real-Time-Weather-Analysis).

The program stores weather records in a pandas DataFrame with columns
`date`, `temperature`, `humidity`, `weather`, later enriched with
`rolling_mean`, `rolling_std`, `is_outlier` (by `calculate_rolling_stats`)
and `week` (by `weekly_average_trends`).

Numbers are modelled by `ℚ`.  A pandas float column that may hold NaN is
modelled by `List (Option ℚ)` with `none` for NaN; pandas comparisons
against NaN yield `False`, which the embedding reproduces explicitly.
The rolling standard deviation is carried as its square (the sample
variance), which keeps every definition inside `ℚ`; the lemma
`abs_sub_gt_two_sqrt_iff` proves that the source's test
`|t - mean| > 2 * std` is equivalent to the squared test
`(t - mean)^2 > 4 * var` used here.
-/

namespace Weather

/-- Arithmetic mean of a list of rationals, `sum / length`
(pandas `Series.mean` on a clean numeric column). -/
def listMean (xs : List ℚ) : ℚ := xs.sum / (xs.length : ℚ)

/-- Sample variance with denominator `n - 1` (pandas uses `ddof = 1`),
undefined (`none`, i.e. NaN) when the list has fewer than two elements,
exactly as pandas returns NaN for the std of a single observation. -/
def sampleVar (xs : List ℚ) : Option ℚ :=
  if xs.length ≤ 1 then none
  else some (((xs.map (fun x => (x - listMean xs) ^ 2)).sum) / ((xs.length : ℚ) - 1))

/-- The window of `w` consecutive values ending at 0-indexed position `i`:
`xs[i-w+1 .. i]`, written with `take`/`drop` on the list. -/
def windowSlice (xs : List ℚ) (w i : Nat) : List ℚ :=
  (xs.take (i + 1)).drop (i + 1 - w)

/-- Value at position `i` of `df['temperature'].rolling(window=w).mean()`
(source line 59): NaN while fewer than `w` observations are available
(`min_periods` defaults to the window size), otherwise the mean of the
window ending at `i`. -/
def rollingMeanAt (xs : List ℚ) (w i : Nat) : Option ℚ :=
  if i + 1 < w then none else some (listMean (windowSlice xs w i))

/-- Value at position `i` of `df['temperature'].rolling(window=w).std()`
(source line 60), carried as its square: NaN while fewer than `w`
observations are available, otherwise the sample variance of the window
(`sampleVar` is itself NaN on a one-element window, matching pandas for
`window = 1`). -/
def rollingVarAt (xs : List ℚ) (w i : Nat) : Option ℚ :=
  if i + 1 < w then none else sampleVar (windowSlice xs w i)

/-- Value at position `i` of
`np.abs(df['temperature'] - df['rolling_mean']) > 2 * df['rolling_std']`
(source line 61).  A comparison involving NaN is `False` in pandas, hence
the `none` branches.  On defined values the source compares
`|t - m| > 2 * std`; squaring both (non-negative) sides gives the
equivalent rational test `(t - m)^2 > 4 * var`
(lemma `abs_sub_gt_two_sqrt_iff`). -/
def isOutlierAt (xs : List ℚ) (w i : Nat) : Bool :=
  match rollingMeanAt xs w i, rollingVarAt xs w i with
  | some m, some v => decide (4 * v < (xs.getD i 0 - m) ^ 2)
  | _, _ => false

/-- The full `rolling_mean` column. -/
def rollingMeanCol (xs : List ℚ) (w : Nat) : List (Option ℚ) :=
  (List.range xs.length).map (rollingMeanAt xs w)

/-- The full `rolling_std` column, carried as squares (sample variances). -/
def rollingVarCol (xs : List ℚ) (w : Nat) : List (Option ℚ) :=
  (List.range xs.length).map (rollingVarAt xs w)

/-- The full `is_outlier` column. -/
def isOutlierCol (xs : List ℚ) (w : Nat) : List Bool :=
  (List.range xs.length).map (isOutlierAt xs w)

/-- A calendar date (the time of day is irrelevant to every claim). -/
structure Date where
  year : Nat
  month : Nat
  day : Nat
deriving DecidableEq, Repr

/-- Gregorian leap-year test. -/
def isLeap (y : Nat) : Bool := y % 4 == 0 && (y % 100 != 0 || y % 400 == 0)

/-- Days in the months strictly before month `m` (1-indexed). -/
def daysBeforeMonth (y m : Nat) : Nat :=
  ([0, 31, 59, 90, 120, 151, 181, 212, 243, 273, 304, 334].getD (m - 1) 0)
  + (if isLeap y && m ≥ 3 then 1 else 0)

/-- Ordinal day of the year, 1-based. -/
def ordinalDay (d : Date) : Nat := daysBeforeMonth d.year d.month + d.day

/-- ISO day of week, Monday = 1 .. Sunday = 7 (Sakamoto's method). -/
def isoWeekday (d : Date) : Nat :=
  let y := if d.month < 3 then d.year - 1 else d.year
  let t := [0, 3, 2, 5, 0, 3, 5, 1, 4, 6, 2, 4].getD (d.month - 1) 0
  let dow := (y + y / 4 - y / 100 + y / 400 + t + d.day) % 7
  if dow == 0 then 7 else dow

/-- Number of ISO weeks in year `y`: 53 when 1 January is a Thursday, or a
Wednesday in a leap year; otherwise 52. -/
def isoWeeksInYear (y : Nat) : Nat :=
  let jan1 := isoWeekday ⟨y, 1, 1⟩
  if jan1 == 4 || (isLeap y && jan1 == 3) then 53 else 52

/-- ISO-8601 week number of a date, as computed by
`Series.dt.isocalendar().week` (source line 137). -/
def isoWeek (d : Date) : Nat :=
  let w := (ordinalDay d + 10 - isoWeekday d) / 7
  if w == 0 then isoWeeksInYear (d.year - 1)
  else if w == 53 && isoWeeksInYear d.year == 52 then 1
  else w

/-- The in-memory DataFrame.  The four base columns come from the fetched
CSV; the derived columns start absent (`none` at the column level) and are
written by `calculate_rolling_stats` (`rolling_mean`, `rolling_std` as its
square, `is_outlier`) and by `weekly_average_trends` (`week`). -/
structure Table where
  date : List Date
  temperature : List ℚ
  humidity : List ℚ
  weather : List String
  rolling_mean : Option (List (Option ℚ)) := none
  rolling_var : Option (List (Option ℚ)) := none
  is_outlier : Option (List Bool) := none
  week : Option (List Nat) := none
deriving DecidableEq, Repr

/-- Source lines 55-62: writes the three derived columns from the
`temperature` column and returns the (same, enriched) table.  In the
source `window` defaults to 3; here it is always passed explicitly. -/
def calculate_rolling_stats (df : Table) (window : Nat) : Table :=
  { df with
    rolling_mean := some (rollingMeanCol df.temperature window)
    rolling_var := some (rollingVarCol df.temperature window)
    is_outlier := some (isOutlierCol df.temperature window) }

/-- The values of `col` at the positions where `keys` holds `k`
(one group of `df.groupby('week')[[...]]`). -/
def groupVals (keys : List Nat) (col : List ℚ) (k : Nat) : List ℚ :=
  ((keys.zip col).filter (fun p => decide (p.1 = k))).map Prod.snd

/-- Source lines 133-148: writes the `week` column
(`df['week'] = df['date'].dt.isocalendar().week`, an in-place mutation of
the consumed table) and computes
`df.groupby('week')[['temperature','humidity']].mean()`: one row per
distinct week number, keys sorted ascending (pandas `sort=True`), each row
holding the group means of temperature and humidity.  Returns the mutated
table together with the plotted rows `(week, mean temp, mean humidity)`. -/
def weekly_average_trends (df : Table) : Table × List (Nat × ℚ × ℚ) :=
  let wk := df.date.map isoWeek
  ({ df with week := some wk },
   (List.insertionSort (· ≤ ·) wk.dedup).map
     (fun k => (k, listMean (groupVals wk df.temperature k),
                   listMean (groupVals wk df.humidity k))))

/-- Ordering of `value_counts` rows: count of the first is at least the
count of the second. -/
def countGE (a b : String × Nat) : Prop := b.2 ≤ a.2

instance : DecidableRel countGE := fun a b => Nat.decLe b.2 a.2

instance : IsTotal (String × Nat) countGE := ⟨fun a b => le_total b.2 a.2⟩

instance : IsTrans (String × Nat) countGE := ⟨fun _ _ _ h h' => le_trans h' h⟩

/-- `df['weather'].value_counts()` (source lines 52 and 126): the distinct
labels paired with their occurrence counts, sorted descending by count. -/
def value_counts (col : List String) : List (String × Nat) :=
  List.insertionSort countGE (col.dedup.map (fun s => (s, col.count s)))

/-- Descriptive statistics of one numeric column, as printed by
`df.describe()`: count, mean, std (carried as the sample variance, its
square), min, max and the three quartiles.  On an empty column the count
is 0 and everything else is NaN (`none`). -/
structure ColStats where
  count : Nat
  mean : Option ℚ
  var : Option ℚ
  min : Option ℚ
  max : Option ℚ
  q25 : Option ℚ
  q50 : Option ℚ
  q75 : Option ℚ
deriving DecidableEq, Repr

/-- Quantile with numpy's default linear interpolation: at fractional
position `q * (n - 1)` of the sorted column. -/
def quantile (xs : List ℚ) (q : ℚ) : Option ℚ :=
  match xs.length with
  | 0 => none
  | n =>
    let s := List.insertionSort (· ≤ ·) xs
    let pos : ℚ := q * ((n : ℚ) - 1)
    let lo : Nat := pos.floor.toNat
    let frac : ℚ := pos - (lo : ℚ)
    some (s.getD lo 0 + frac * (s.getD (lo + 1) (s.getD lo 0) - s.getD lo 0))

/-- The `describe()` row block of one numeric column. -/
def describeCol (xs : List ℚ) : ColStats :=
  { count := xs.length
    mean := if xs.length = 0 then none else some (listMean xs)
    var := sampleVar xs
    min := xs.min?
    max := xs.max?
    q25 := quantile xs (1/4)
    q50 := quantile xs (1/2)
    q75 := quantile xs (3/4) }

/-- The textual report printed by `analyze_data` (source lines 39-52):
`df.describe()` for the numeric base columns, the two averages, and the
weather-condition frequency table. -/
structure Summary where
  temperature_stats : ColStats
  humidity_stats : ColStats
  avg_temp : ℚ
  avg_humidity : ℚ
  weather_counts : List (String × Nat)
deriving DecidableEq, Repr

/-- Source lines 39-52: reads the table and prints summary statistics;
it assigns no column, so the table state after the call is the input
table, returned here alongside the printed report. -/
def analyze_data (df : Table) : Table × Summary :=
  (df,
   { temperature_stats := describeCol df.temperature
     humidity_stats := describeCol df.humidity
     avg_temp := listMean df.temperature
     avg_humidity := listMean df.humidity
     weather_counts := value_counts df.weather })

/-- Source lines 65-95: plots temperature, rolling mean, the ±2-std band,
and the rows `outliers = df[df['is_outlier']]` (printed as
`(date, temperature)` pairs when non-empty).  No column is assigned, so
the table state after the call is the input table. -/
def plot_rolling_stats (df : Table) : Table × List (Date × ℚ) :=
  (df,
   ((df.date.zip df.temperature).zip (df.is_outlier.getD [])).filterMap
     (fun p => if p.2 then some p.1 else none))

/-- Source lines 98-130: renders the temperature line view, the humidity
line view and the condition pie chart (`df['weather'].value_counts()`).
No column is assigned, so the table state after the call is the input
table, returned with the pie-chart data. -/
def visualize_data (df : Table) : Table × List (String × Nat) :=
  (df, value_counts df.weather)

/-! ## Raw model of the temperature column (for the `DataError` claim)

In the real program the table comes from `pd.read_csv`: a temperature cell
is a number, an empty cell (NaN), or a non-numeric string.  A string cell
makes the whole column object-dtype and `Series.rolling(...).mean()` then
raises `pandas.errors.DataError` before anything is assigned; NaN cells
keep the column float-dtype and the rolling statistics of every window
touching the NaN are NaN, with no error. -/

/-- One cell of a raw (CSV-loaded) temperature column. -/
inductive RawVal where
  | num (q : ℚ)
  | nan
  | str (s : String)
deriving DecidableEq, Repr

/-- `pandas.errors.DataError` ("No numeric types to aggregate"). -/
structure DataError where
deriving DecidableEq, Repr

/-- True when the column holds a non-numeric string, i.e. the pandas
column has object dtype. -/
def hasNonNumeric (col : List RawVal) : Bool :=
  col.any (fun v => match v with | .str _ => true | _ => false)

/-- A float-dtype cell: `some q` for a number, `none` for NaN. -/
def RawVal.toFloat? : RawVal → Option ℚ
  | .num q => some q
  | _ => none

/-- Turns a list of optional values into `some` list exactly when no entry
is missing. -/
def collectSome : List (Option ℚ) → Option (List ℚ)
  | [] => some []
  | none :: _ => none
  | some x :: rest => (collectSome rest).map (fun l => x :: l)

/-- NaN-aware rolling mean on a float column: NaN while the window is not
full or when any value inside the window is NaN. -/
def rollingMeanAtF (xs : List (Option ℚ)) (w i : Nat) : Option ℚ :=
  if i + 1 < w then none
  else (collectSome ((xs.take (i + 1)).drop (i + 1 - w))).map listMean

/-- NaN-aware rolling sample variance (std squared) on a float column. -/
def rollingVarAtF (xs : List (Option ℚ)) (w i : Nat) : Option ℚ :=
  if i + 1 < w then none
  else (collectSome ((xs.take (i + 1)).drop (i + 1 - w))).bind sampleVar

/-- NaN-aware outlier test: any NaN comparison is `False`. -/
def isOutlierAtF (xs : List (Option ℚ)) (w i : Nat) : Bool :=
  match xs.getD i none, rollingMeanAtF xs w i, rollingVarAtF xs w i with
  | some t, some m, some v => decide (4 * v < (t - m) ^ 2)
  | _, _, _ => false

/-- A table whose temperature column is raw CSV data; derived columns as
in `Table`. -/
structure RawTable where
  date : List Date
  temperature : List RawVal
  humidity : List ℚ
  weather : List String
  rolling_mean : Option (List (Option ℚ)) := none
  rolling_var : Option (List (Option ℚ)) := none
  is_outlier : Option (List Bool) := none
deriving DecidableEq, Repr

/-- Source lines 55-62 on a raw column: the first rolling call (line 59)
raises `DataError` when the column has object dtype, so no derived column
is assigned at all; otherwise all three derived columns are computed with
NaN propagation and assigned. -/
def calculate_rolling_stats_raw (df : RawTable) (window : Nat) :
    Except DataError RawTable :=
  if hasNonNumeric df.temperature then .error {}
  else
    let xs := df.temperature.map RawVal.toFloat?
    .ok { df with
      rolling_mean := some ((List.range xs.length).map (rollingMeanAtF xs window))
      rolling_var := some ((List.range xs.length).map (rollingVarAtF xs window))
      is_outlier := some ((List.range xs.length).map (isOutlierAtF xs window)) }

/-! ## Model of the fetch step -/

/-- One entry of the forecast JSON `data["list"]`: the fields the source
reads (`dt_txt`, `main.temp`, `main.humidity`, and the description of each
element of the `weather` array, of which element 0 is used). -/
structure ApiEntry where
  dt_txt : String
  temp : ℚ
  humidity : ℚ
  weather : List String
deriving DecidableEq, Repr

/-- The HTTP response of the forecast endpoint. -/
structure ApiResponse where
  status_code : Nat
  list : List ApiEntry
deriving DecidableEq, Repr

/-- One row of the saved CSV (`date,temperature,humidity,weather`). -/
structure Record where
  date : String
  temperature : ℚ
  humidity : ℚ
  weather : String
deriving DecidableEq, Repr

/-- Outcome of `fetch_weather_data`: the saved record sequence, the
fatal non-success-status failure (the source prints the status code and
calls `exit()`, producing no table), or a parse failure
(`entry["weather"][0]` on an empty array). -/
inductive FetchOutcome where
  | saved (rows : List Record)
  | fetchError (status_code : Nat)
  | parseError
deriving DecidableEq, Repr

/-- The extraction loop of source lines 24-28: one record per entry, in
order, reading `dt_txt`, `main.temp`, `main.humidity` and `weather[0]`;
the whole extraction fails at the first entry whose `weather` array is
empty (`entry["weather"][0]` raises). -/
def extractRecords : List ApiEntry → Option (List Record)
  | [] => some []
  | e :: rest =>
    match e.weather.head? with
    | some w => (extractRecords rest).map
        (fun rs => Record.mk e.dt_txt e.temp e.humidity w :: rs)
    | none => none

/-- Source lines 8-36: on status 200 builds the record sequence from
`data["list"]` and saves it; on any other status it reports the status
code and aborts, producing no table. -/
def fetch_weather_data (resp : ApiResponse) : FetchOutcome :=
  if resp.status_code = 200 then
    match extractRecords resp.list with
    | some rows => .saved rows
    | none => .parseError
  else .fetchError resp.status_code

/-! ## Concrete tables and responses used to instantiate the theorems -/

/-- The four-record scenario of the specification (§8): temperatures
`20, 22, 21, 40`, window 3. -/
def scenarioTable : Table :=
  { date := [⟨2026, 10, 12⟩, ⟨2026, 10, 13⟩, ⟨2026, 10, 14⟩, ⟨2026, 10, 15⟩]
    temperature := [20, 22, 21, 40]
    humidity := [50, 55, 52, 53]
    weather := ["clear", "clear", "rain", "storm"] }

/-- A small table spanning two ISO weeks (week 41 and week 42 of 2026). -/
def twoWeekTable : Table :=
  { date := [⟨2026, 10, 12⟩, ⟨2026, 10, 13⟩, ⟨2026, 10, 5⟩]
    temperature := [10, 20, 30]
    humidity := [50, 60, 70]
    weather := ["rain", "rain", "sun"] }

/-- A raw table with a missing (NaN) temperature and no string cell. -/
def nanRawTable : RawTable :=
  { date := [⟨2026, 10, 12⟩, ⟨2026, 10, 13⟩, ⟨2026, 10, 14⟩]
    temperature := [.num 1, .nan, .num 3]
    humidity := [1, 2, 3]
    weather := ["a", "b", "c"] }

/-- A raw table with a non-numeric temperature cell (object dtype). -/
def strRawTable : RawTable :=
  { date := [⟨2026, 10, 12⟩, ⟨2026, 10, 13⟩]
    temperature := [.num 1, .str "oops"]
    humidity := [1, 2]
    weather := ["a", "b"] }

/-- A successful forecast response with two entries. -/
def okResponse : ApiResponse :=
  { status_code := 200
    list := [⟨"2026-10-12 12:00:00", 21, 60, ["light rain", "mist"]⟩,
             ⟨"2026-10-12 15:00:00", 22, 58, ["clear sky"]⟩] }

/-- A failed forecast response (HTTP 404). -/
def notFoundResponse : ApiResponse := { status_code := 404, list := [] }

/-! ## Helper lemmas -/

theorem getElem?_map_range {α : Type} (f : Nat → α) {n i : Nat} (h : i < n) :
    ((List.range n).map f)[i]? = some (f i) := by
  rw [List.getElem?_map, List.getElem?_range h, Option.map_some']

theorem windowSlice_length {xs : List ℚ} {w i : Nat} (hi : i < xs.length)
    (hw : w ≤ i + 1) : (windowSlice xs w i).length = w := by
  simp only [windowSlice, List.length_drop, List.length_take]
  omega

theorem windowSlice_getElem? {xs : List ℚ} {w i j : Nat} (hw : w ≤ i + 1)
    (hj : j < w) : (windowSlice xs w i)[j]? = xs[i + 1 - w + j]? := by
  simp only [windowSlice, List.getElem?_drop, List.getElem?_take]
  rw [if_pos (by omega)]

theorem windowSlice_congr {xs ys : List ℚ} {w i : Nat} (hx : i < xs.length)
    (hy : i < ys.length) (hw : w ≤ i + 1)
    (hagree : ∀ j, i + 1 - w ≤ j → j ≤ i → ys[j]? = xs[j]?) :
    windowSlice ys w i = windowSlice xs w i := by
  apply List.ext_getElem?
  intro n
  by_cases hn : n < w
  · rw [windowSlice_getElem? hw hn, windowSlice_getElem? hw hn]
    exact hagree (i + 1 - w + n) (by omega) (by omega)
  · rw [List.getElem?_eq_none (by rw [windowSlice_length hy hw]; omega),
        List.getElem?_eq_none (by rw [windowSlice_length hx hw]; omega)]

theorem map_range_const {α : Type} {f : Nat → α} {n : Nat} {c : α}
    (h : ∀ i, i < n → f i = c) : (List.range n).map f = List.replicate n c := by
  have h' : ∀ a ∈ List.range n, f a = Function.const Nat c a :=
    fun a ha => h a (List.mem_range.mp ha)
  rw [List.map_congr_left h', List.map_const, List.length_range]

theorem rollingVarAt_one (xs : List ℚ) (i : Nat) : rollingVarAt xs 1 i = none := by
  have hlen : (windowSlice xs 1 i).length ≤ 1 := by
    simp only [windowSlice, List.length_drop, List.length_take]
    omega
  simp [rollingVarAt, sampleVar, hlen]

theorem isOutlierAt_of_var_none {xs : List ℚ} {w i : Nat}
    (h : rollingVarAt xs w i = none) : isOutlierAt xs w i = false := by
  unfold isOutlierAt
  rw [h]
  cases rollingMeanAt xs w i <;> rfl

theorem isOutlierAt_of_mean_none {xs : List ℚ} {w i : Nat}
    (h : rollingMeanAt xs w i = none) : isOutlierAt xs w i = false := by
  unfold isOutlierAt
  rw [h]

theorem isOutlierAt_some_some {xs : List ℚ} {w i : Nat} {m v : ℚ}
    (hm : rollingMeanAt xs w i = some m) (hv : rollingVarAt xs w i = some v) :
    isOutlierAt xs w i = decide (4 * v < (xs.getD i 0 - m) ^ 2) := by
  unfold isOutlierAt
  rw [hm, hv]

theorem rollingMeanAt_undefined {xs : List ℚ} {w i : Nat} (h : i + 1 < w) :
    rollingMeanAt xs w i = none := by
  simp [rollingMeanAt, h]

theorem rollingVarAt_undefined {xs : List ℚ} {w i : Nat} (h : i + 1 < w) :
    rollingVarAt xs w i = none := by
  simp [rollingVarAt, h]

/-! ## Claim C1 -/

/-- Claim C1: at every position `i ≥ window - 1` the rolling mean is the
arithmetic mean of the `window` temperatures ending at `i` (a slice whose
entries are exactly `temperature[i-window+1 .. i]`), the rolling std —
carried as its square — is the sample variance of that same slice with
denominator `window - 1` (undefined when `window = 1`), both are undefined
at every position `i < window - 1`, and the defined values depend only on
the window slice: temperatures that agree on the slice give equal rolling
statistics at `i`. -/
theorem rolling_stats_window_spec (df : Table) (w i : Nat) (hw : 0 < w)
    (hi : i < df.temperature.length) :
    ∃ mcol vcol,
      (calculate_rolling_stats df w).rolling_mean = some mcol ∧
      (calculate_rolling_stats df w).rolling_var = some vcol ∧
      (i + 1 < w → mcol[i]? = some none ∧ vcol[i]? = some none) ∧
      (w ≤ i + 1 →
        (windowSlice df.temperature w i).length = w ∧
        (∀ j, j < w →
          (windowSlice df.temperature w i)[j]? = df.temperature[i + 1 - w + j]?) ∧
        mcol[i]? = some (some ((windowSlice df.temperature w i).sum / (w : ℚ))) ∧
        (2 ≤ w → vcol[i]? = some (some
          (((windowSlice df.temperature w i).map
              (fun x => (x - (windowSlice df.temperature w i).sum / (w : ℚ)) ^ 2)).sum
            / ((w : ℚ) - 1)))) ∧
        (w = 1 → vcol[i]? = some none)) ∧
      (∀ ys : List ℚ, i < ys.length →
        (∀ j, i + 1 - w ≤ j → j ≤ i → ys[j]? = df.temperature[j]?) →
        rollingMeanAt ys w i = rollingMeanAt df.temperature w i ∧
        rollingVarAt ys w i = rollingVarAt df.temperature w i) := by
  refine ⟨rollingMeanCol df.temperature w, rollingVarCol df.temperature w,
    rfl, rfl, ?_, ?_, ?_⟩
  · intro h
    rw [rollingMeanCol, getElem?_map_range _ hi, rollingVarCol,
      getElem?_map_range _ hi, rollingMeanAt_undefined h, rollingVarAt_undefined h]
    exact ⟨rfl, rfl⟩
  · intro h
    have hlen := windowSlice_length hi h
    refine ⟨hlen, fun j hj => windowSlice_getElem? h hj, ?_, ?_, ?_⟩
    · rw [rollingMeanCol, getElem?_map_range _ hi, rollingMeanAt,
        if_neg (by omega), listMean, hlen]
    · intro h2
      rw [rollingVarCol, getElem?_map_range _ hi, rollingVarAt,
        if_neg (by omega), sampleVar, if_neg (by omega), listMean, hlen]
    · intro h1
      rw [rollingVarCol, getElem?_map_range _ hi, rollingVarAt,
        if_neg (by omega), sampleVar, if_pos (by omega)]
  · intro ys hy hagree
    by_cases hiw : i + 1 < w
    · rw [rollingMeanAt_undefined hiw, rollingMeanAt_undefined hiw,
        rollingVarAt_undefined hiw, rollingVarAt_undefined hiw]
      exact ⟨rfl, rfl⟩
    · have hs := windowSlice_congr hi hy (by omega) hagree
      rw [rollingMeanAt, rollingMeanAt, rollingVarAt, rollingVarAt, hs]
      exact ⟨rfl, rfl⟩

/-- Witness for C1 at the specification's own scenario (window 3,
temperatures `20, 22, 21, 40`, position 3): the hypotheses hold and the
rolling mean at position 3 is `mean (22, 21, 40) = 83/3`. -/
theorem rolling_stats_window_spec_witness :
    (0 < 3 ∧ 3 < scenarioTable.temperature.length) ∧
    ∃ mcol, (calculate_rolling_stats scenarioTable 3).rolling_mean = some mcol ∧
      mcol[3]? = some (some (83 / 3)) := by
  refine ⟨⟨by decide, by decide⟩, ?_⟩
  obtain ⟨mcol, vcol, h1, _, _, h4, _⟩ :=
    rolling_stats_window_spec scenarioTable 3 3 (by decide) (by decide)
  refine ⟨mcol, h1, ?_⟩
  rw [(h4 (by decide)).2.2.1]
  norm_num [scenarioTable, windowSlice]

/-! ## Claim C2 -/

/-- Strict comparison against twice a square root is the comparison of
squares: for `v ≥ 0`, the source's float test `2 * sqrt v < |d|` holds
exactly when `4 * v < d ^ 2`, which is the rational test the embedding
computes. -/
theorem two_sqrt_lt_abs_iff {v d : ℝ} (hv : 0 ≤ v) :
    2 * Real.sqrt v < |d| ↔ 4 * v < d ^ 2 := by
  have h4 : (0 : ℝ) ≤ 4 * v := by positivity
  have hs : 2 * Real.sqrt v = Real.sqrt (4 * v) := by
    rw [show (4 : ℝ) * v = 2 ^ 2 * v by ring,
      Real.sqrt_mul (by positivity) v, Real.sqrt_sq (by norm_num)]
  rw [hs]
  constructor
  · intro h
    have hsq := Real.sq_sqrt h4
    nlinarith [Real.sqrt_nonneg (4 * v), abs_nonneg d, sq_abs d]
  · intro h
    have hd : 0 < |d| := by nlinarith [sq_abs d, abs_nonneg d]
    rw [Real.sqrt_lt' hd, sq_abs]
    exact h

theorem sum_sq_nonneg (l : List ℚ) (c : ℚ) :
    0 ≤ ((l.map (fun x => (x - c) ^ 2)).sum) := by
  apply List.sum_nonneg
  intro y hy
  obtain ⟨z, _, rfl⟩ := List.mem_map.mp hy
  exact sq_nonneg _

theorem eq_of_sum_sq_eq_zero {c : ℚ} :
    ∀ {l : List ℚ}, ((l.map (fun x => (x - c) ^ 2)).sum = 0) → ∀ x ∈ l, x = c
  | [], _, x, hx => absurd hx (List.not_mem_nil x)
  | a :: l, h, x, hx => by
    rw [List.map_cons, List.sum_cons] at h
    have h1 : 0 ≤ (a - c) ^ 2 := sq_nonneg _
    have h2 := sum_sq_nonneg l c
    rcases List.mem_cons.mp hx with rfl | hx
    · nlinarith
    · exact eq_of_sum_sq_eq_zero (by nlinarith) x hx

theorem sampleVar_nonneg {xs : List ℚ} {v : ℚ} (h : sampleVar xs = some v) :
    0 ≤ v := by
  unfold sampleVar at h
  split at h
  · exact absurd h (by simp)
  · rename_i hlen
    rw [Option.some.injEq] at h
    subst h
    apply div_nonneg (sum_sq_nonneg xs (listMean xs))
    have : 2 ≤ xs.length := by omega
    have : (2 : ℚ) ≤ (xs.length : ℚ) := by exact_mod_cast this
    linarith

theorem rollingVarAt_nonneg {xs : List ℚ} {w i : Nat} {v : ℚ}
    (h : rollingVarAt xs w i = some v) : 0 ≤ v := by
  unfold rollingVarAt at h
  split at h
  · exact absurd h (by simp)
  · exact sampleVar_nonneg h

theorem sampleVar_eq_zero {xs : List ℚ} (h : sampleVar xs = some 0) :
    ∀ x ∈ xs, x = listMean xs := by
  unfold sampleVar at h
  split at h
  · exact absurd h (by simp)
  · rename_i hlen
    rw [Option.some.injEq, div_eq_zero_iff] at h
    rcases h with h | h
    · exact eq_of_sum_sq_eq_zero h
    · exfalso
      have : 2 ≤ xs.length := by omega
      have : (2 : ℚ) ≤ (xs.length : ℚ) := by exact_mod_cast this
      linarith [sub_eq_zero.mp h]

/-- Claim C2: a position is flagged an outlier exactly when its rolling
mean and rolling std are both defined and the temperature deviates from
the rolling mean by strictly more than two rolling standard deviations
(stated over ℝ with the genuine square root); a position with fewer than
`window` records ending at it is never flagged, and a position whose
rolling std is zero is never flagged. -/
theorem is_outlier_iff_spec (df : Table) (w i : Nat) (hw : 0 < w)
    (hi : i < df.temperature.length) :
    ∃ ocol,
      (calculate_rolling_stats df w).is_outlier = some ocol ∧
      ocol[i]? = some (isOutlierAt df.temperature w i) ∧
      (isOutlierAt df.temperature w i = true ↔
        ∃ m v, rollingMeanAt df.temperature w i = some m ∧
          rollingVarAt df.temperature w i = some v ∧
          2 * Real.sqrt (v : ℝ) <
            |((df.temperature.getD i 0 : ℚ) : ℝ) - (m : ℝ)|) ∧
      (i + 1 < w → isOutlierAt df.temperature w i = false) ∧
      (rollingVarAt df.temperature w i = some 0 →
        isOutlierAt df.temperature w i = false) := by
  refine ⟨isOutlierCol df.temperature w,
    rfl, by rw [isOutlierCol, getElem?_map_range _ hi], ?_, ?_, ?_⟩
  · cases hm : rollingMeanAt df.temperature w i with
    | none =>
      rw [isOutlierAt_of_mean_none hm]
      simp only [Bool.false_eq_true, false_iff]
      rintro ⟨m, v, hm', _, _⟩
      exact Option.noConfusion hm'
    | some m =>
      cases hv : rollingVarAt df.temperature w i with
      | none =>
        rw [isOutlierAt_of_var_none hv]
        simp only [Bool.false_eq_true, false_iff]
        rintro ⟨m', v, _, hv', _⟩
        exact Option.noConfusion hv'
      | some v =>
        rw [isOutlierAt_some_some hm hv, decide_eq_true_iff]
        constructor
        · intro h
          refine ⟨m, v, rfl, rfl, ?_⟩
          rw [two_sqrt_lt_abs_iff (by exact_mod_cast rollingVarAt_nonneg hv)]
          exact_mod_cast h
        · rintro ⟨m', v', hm', hv', h⟩
          rw [Option.some.injEq] at hm' hv'
          subst hm'
          subst hv'
          rw [two_sqrt_lt_abs_iff (by exact_mod_cast rollingVarAt_nonneg hv)] at h
          have := h
          push_cast at this
          exact_mod_cast this
  · intro h
    exact isOutlierAt_of_var_none (rollingVarAt_undefined h)
  · intro hv0
    have hiw : ¬ (i + 1 < w) := by
      intro hlt
      exact absurd
        (@rollingVarAt_undefined df.temperature w i hlt ▸ hv0) (by simp)
    have hsv : sampleVar (windowSlice df.temperature w i) = some 0 := by
      unfold rollingVarAt at hv0
      rwa [if_neg hiw] at hv0
    have hconst := sampleVar_eq_zero hsv
    have hlast : df.temperature.getD i 0 ∈ windowSlice df.temperature w i := by
      have hidx : (windowSlice df.temperature w i)[w - 1]?
          = some (df.temperature.getD i 0) := by
        rw [windowSlice_getElem? (by omega) (by omega),
          show i + 1 - w + (w - 1) = i by omega,
          List.getD_eq_getElem?_getD df.temperature i 0,
          List.getElem?_eq_getElem hi]
        rfl
      exact List.getElem?_mem hidx
    have ht := hconst _ hlast
    have hm : rollingMeanAt df.temperature w i
        = some (listMean (windowSlice df.temperature w i)) := by
      rw [rollingMeanAt, if_neg hiw]
    rw [isOutlierAt_some_some hm hv0, decide_eq_false_iff_not, ht]
    simp

/-- Witness for C2 at the specification's scenario: at window 3 and
position 3 (temperature 40, rolling mean 83/3, rolling variance 343/3)
the deviation does not exceed two standard deviations, so the outlier
flag is false, and the characterizing equivalence holds there. -/
theorem is_outlier_iff_spec_witness :
    (0 < 3 ∧ 3 < scenarioTable.temperature.length) ∧
    isOutlierAt scenarioTable.temperature 3 3 = false := by
  refine ⟨⟨by decide, by decide⟩, ?_⟩
  obtain ⟨ocol, h1, h2, h3, h4, h5⟩ :=
    is_outlier_iff_spec scenarioTable 3 3 (by decide) (by decide)
  by_contra hne
  rw [Bool.not_eq_false] at hne
  obtain ⟨m, v, hm, hv, hlt⟩ := h3.mp hne
  have hm' : m = 83 / 3 := by
    have : rollingMeanAt scenarioTable.temperature 3 3 = some (83 / 3) := by
      norm_num [rollingMeanAt, windowSlice, listMean, scenarioTable]
    rw [this, Option.some.injEq] at hm
    exact hm.symm
  have hv' : v = 343 / 3 := by
    have : rollingVarAt scenarioTable.temperature 3 3 = some (343 / 3) := by
      norm_num [rollingVarAt, windowSlice, sampleVar, listMean, scenarioTable]
    rw [this, Option.some.injEq] at hv
    exact hv.symm
  subst hm'
  subst hv'
  rw [two_sqrt_lt_abs_iff (by norm_num)] at hlt
  norm_num [scenarioTable] at hlt

/-! ## Claim C5 -/

theorem groupVals_map_isoWeek (ds : List Date) (ts : List ℚ) (k : Nat) :
    groupVals (ds.map isoWeek) ts k
      = ((ds.zip ts).filter (fun p => decide (isoWeek p.1 = k))).map Prod.snd := by
  unfold groupVals
  rw [List.zip_map_left, List.filter_map, List.map_map]
  rfl

/-- Claim C5: the weekly aggregation yields one row per ISO-8601 week
number occurring among the records' dates, presented in strictly
ascending week-number order, and each row holds the mean temperature and
the mean humidity computed independently over exactly the records of that
week number. -/
theorem weekly_average_trends_spec (df : Table) :
    List.Sorted (· < ·) ((weekly_average_trends df).2.map Prod.fst) ∧
    (∀ k : Nat, k ∈ (weekly_average_trends df).2.map Prod.fst ↔
        ∃ d ∈ df.date, isoWeek d = k) ∧
    (∀ e ∈ (weekly_average_trends df).2,
      e.2.1 = listMean (((df.date.zip df.temperature).filter
          (fun p => decide (isoWeek p.1 = e.1))).map Prod.snd) ∧
      e.2.2 = listMean (((df.date.zip df.humidity).filter
          (fun p => decide (isoWeek p.1 = e.1))).map Prod.snd)) := by
  have hkeys : (weekly_average_trends df).2.map Prod.fst
      = List.insertionSort (· ≤ ·) (df.date.map isoWeek).dedup := by
    show (List.map _ (List.insertionSort _ _)).map Prod.fst = _
    rw [List.map_map]
    exact List.map_id _
  refine ⟨?_, ?_, ?_⟩
  · rw [hkeys]
    exact List.Sorted.lt_of_le
      (List.sorted_insertionSort _ _)
      (((List.perm_insertionSort _ _).nodup_iff).mpr (List.nodup_dedup _))
  · intro k
    rw [hkeys, (List.perm_insertionSort _ _).mem_iff, List.mem_dedup, List.mem_map]
  · intro e he
    obtain ⟨k, _, rfl⟩ := List.mem_map.mp he
    exact ⟨congrArg listMean (groupVals_map_isoWeek df.date df.temperature k),
           congrArg listMean (groupVals_map_isoWeek df.date df.humidity k)⟩

/-! ## Claim C6 -/

theorem collectSome_eq_none_of_mem {l : List (Option ℚ)} (h : none ∈ l) :
    collectSome l = none := by
  induction l with
  | nil => exact absurd h (List.not_mem_nil _)
  | cons a l ih =>
    cases a with
    | none => rfl
    | some x =>
      have hl : none ∈ l := by
        rcases List.mem_cons.mp h with h1 | h1
        · exact Option.noConfusion h1
        · exact h1
      simp [collectSome, ih hl]

theorem dropTake_getElem? {α : Type} (xs : List α) {w i j : Nat}
    (hw : w ≤ i + 1) (hj : j < w) :
    ((xs.take (i + 1)).drop (i + 1 - w))[j]? = xs[i + 1 - w + j]? := by
  simp only [List.getElem?_drop, List.getElem?_take]
  rw [if_pos (by omega)]

theorem isOutlierAtF_of_mean_none {xs : List (Option ℚ)} {w i : Nat}
    (h : rollingMeanAtF xs w i = none) : isOutlierAtF xs w i = false := by
  unfold isOutlierAtF
  rw [h]
  cases xs.getD i none <;> rfl

/-- Claim C6 counterexample: a table with a missing (NaN) temperature does
not make the rolling computation fail — it succeeds, with no `DataError`. -/
theorem missing_temperature_no_error_cex :
    (calculate_rolling_stats_raw nanRawTable 3).isOk = true := rfl

/-- Claim C6 (amended): when the temperature column holds a non-numeric
(string) value the rolling computation fails with `DataError` propagated
to the caller and no derived column is written; a missing (NaN)
temperature does not raise — the computation succeeds, the base columns
are unchanged, and every position whose window contains the missing value
has undefined rolling mean and std and is not flagged an outlier. -/
theorem calculate_rolling_stats_raw_spec (df : RawTable) (w : Nat) :
    (hasNonNumeric df.temperature = true →
       calculate_rolling_stats_raw df w = .error {}) ∧
    (hasNonNumeric df.temperature = false →
       ∃ t, calculate_rolling_stats_raw df w = .ok t ∧
         t.date = df.date ∧ t.temperature = df.temperature ∧
         t.humidity = df.humidity ∧ t.weather = df.weather ∧
         ∃ mcol vcol ocol,
           t.rolling_mean = some mcol ∧ t.rolling_var = some vcol ∧
           t.is_outlier = some ocol ∧
           (∀ i j, j ≤ i → i < j + w → i < df.temperature.length →
              df.temperature[j]? = some .nan →
              mcol[i]? = some none ∧ vcol[i]? = some none ∧
              ocol[i]? = some false)) := by
  constructor
  · intro h
    unfold calculate_rolling_stats_raw
    rw [if_pos h]
  · intro h
    unfold calculate_rolling_stats_raw
    rw [if_neg (by rw [h]; exact Bool.false_ne_true)]
    refine ⟨_, rfl, rfl, rfl, rfl, rfl, _, _, _, rfl, rfl, rfl, ?_⟩
    intro i j hji hij hi hnan
    have hilen : i < (df.temperature.map RawVal.toFloat?).length := by
      rwa [List.length_map]
    have hxj : (df.temperature.map RawVal.toFloat?)[j]? = some none := by
      rw [List.getElem?_map, hnan]
      rfl
    have hmem : ∀ hw2 : ¬ (i + 1 < w),
        none ∈ (((df.temperature.map RawVal.toFloat?).take (i + 1)).drop (i + 1 - w)) := by
      intro hw2
      have hidx : (((df.temperature.map RawVal.toFloat?).take (i + 1)).drop
          (i + 1 - w))[j - (i + 1 - w)]? = some none := by
        rw [dropTake_getElem? _ (by omega) (by omega),
          show i + 1 - w + (j - (i + 1 - w)) = j by omega]
        exact hxj
      exact List.getElem?_mem hidx
    have hmean : rollingMeanAtF (df.temperature.map RawVal.toFloat?) w i = none := by
      unfold rollingMeanAtF
      by_cases hw2 : i + 1 < w
      · rw [if_pos hw2]
      · rw [if_neg hw2, collectSome_eq_none_of_mem (hmem hw2)]
        rfl
    have hvar : rollingVarAtF (df.temperature.map RawVal.toFloat?) w i = none := by
      unfold rollingVarAtF
      by_cases hw2 : i + 1 < w
      · rw [if_pos hw2]
      · rw [if_neg hw2, collectSome_eq_none_of_mem (hmem hw2)]
        rfl
    refine ⟨?_, ?_, ?_⟩
    · rw [getElem?_map_range _ hilen, hmean]
    · rw [getElem?_map_range _ hilen, hvar]
    · rw [getElem?_map_range _ hilen, isOutlierAtF_of_mean_none hmean]

/-- Witness for C6 at a concrete raw table with a string temperature cell:
the hypothesis holds and the computation returns `DataError`. -/
theorem calculate_rolling_stats_raw_spec_witness :
    hasNonNumeric strRawTable.temperature = true ∧
    calculate_rolling_stats_raw strRawTable 3 = .error {} :=
  ⟨by decide, (calculate_rolling_stats_raw_spec strRawTable 3).1 (by decide)⟩

/-! ## Claim C7 -/

theorem extractRecords_eq (l : List ApiEntry) (h : ∀ e ∈ l, e.weather ≠ []) :
    extractRecords l = some (l.map
      (fun e => Record.mk e.dt_txt e.temp e.humidity e.weather.headI)) := by
  induction l with
  | nil => rfl
  | cons e l ih =>
    have he := h e (List.mem_cons_self e l)
    cases hw : e.weather with
    | nil => exact absurd hw he
    | cons w ws =>
      simp [extractRecords, hw, ih (fun x hx => h x (List.mem_cons_of_mem e hx))]

/-- Claim C7: a response with a non-success status makes the fetch fail,
carrying that status code and producing no table; a success (200)
response whose entries each have a non-empty weather array yields the
ordered sequence of records parsed from the response, in order. -/
theorem fetch_weather_data_spec (resp : ApiResponse) :
    (resp.status_code ≠ 200 →
       fetch_weather_data resp = .fetchError resp.status_code) ∧
    (resp.status_code = 200 → (∀ e ∈ resp.list, e.weather ≠ []) →
       fetch_weather_data resp = .saved (resp.list.map
         (fun e => Record.mk e.dt_txt e.temp e.humidity e.weather.headI))) := by
  constructor
  · intro h
    unfold fetch_weather_data
    rw [if_neg h]
  · intro h hp
    unfold fetch_weather_data
    rw [if_pos h, extractRecords_eq _ hp]

/-- Witness for C7: a 404 response yields `FetchError 404` and no table;
a 200 response yields the parsed records in order. -/
theorem fetch_weather_data_spec_witness :
    (notFoundResponse.status_code ≠ 200 ∧
     fetch_weather_data notFoundResponse = .fetchError 404) ∧
    (okResponse.status_code = 200 ∧
     fetch_weather_data okResponse = .saved
       [⟨"2026-10-12 12:00:00", 21, 60, "light rain"⟩,
        ⟨"2026-10-12 15:00:00", 22, 58, "clear sky"⟩]) := by
  refine ⟨⟨by decide, (fetch_weather_data_spec notFoundResponse).1 (by decide)⟩,
    rfl, ?_⟩
  rw [(fetch_weather_data_spec okResponse).2 rfl (by decide)]
  rfl

/-! ## Claim C8 -/

/-- Claim C8: the summary step is a pure function of the table — the
table state after it is the input table, and its report holds the
per-column statistics (count shown here, with min/max characterised
against the column), the mean temperature, the mean humidity, and one
row per distinct condition label paired with that label's frequency,
sorted descending by count. -/
theorem analyze_data_spec (df : Table) :
    (analyze_data df).1 = df ∧
    (analyze_data df).2.avg_temp = df.temperature.sum / (df.temperature.length : ℚ) ∧
    (analyze_data df).2.avg_humidity = df.humidity.sum / (df.humidity.length : ℚ) ∧
    (analyze_data df).2.temperature_stats.count = df.temperature.length ∧
    (analyze_data df).2.humidity_stats.count = df.humidity.length ∧
    List.Sorted countGE (analyze_data df).2.weather_counts ∧
    (∀ s c, (s, c) ∈ (analyze_data df).2.weather_counts ↔
       s ∈ df.weather ∧ c = df.weather.count s) ∧
    ((analyze_data df).2.weather_counts.map Prod.fst).Nodup ∧
    (∀ m, (analyze_data df).2.temperature_stats.min = some m →
       m ∈ df.temperature ∧ ∀ x ∈ df.temperature, m ≤ x) ∧
    (∀ m, (analyze_data df).2.temperature_stats.max = some m →
       m ∈ df.temperature ∧ ∀ x ∈ df.temperature, x ≤ m) := by
  refine ⟨rfl, rfl, rfl, rfl, rfl, ?_, ?_, ?_, ?_, ?_⟩
  · exact List.sorted_insertionSort countGE _
  · intro s c
    show (s, c) ∈ value_counts df.weather ↔ _
    rw [value_counts, (List.perm_insertionSort _ _).mem_iff, List.mem_map]
    constructor
    · rintro ⟨a, ha, heq⟩
      rw [Prod.mk.injEq] at heq
      obtain ⟨rfl, rfl⟩ := heq
      exact ⟨List.mem_dedup.mp ha, rfl⟩
    · rintro ⟨hs, rfl⟩
      exact ⟨s, List.mem_dedup.mpr hs, rfl⟩
  · have h1 := (List.perm_insertionSort countGE
      (df.weather.dedup.map (fun s => (s, df.weather.count s)))).map Prod.fst
    rw [List.map_map] at h1
    have h2 : df.weather.dedup.map
        (Prod.fst ∘ fun s => (s, df.weather.count s)) = df.weather.dedup :=
      List.map_id _
    rw [h2] at h1
    exact h1.nodup_iff.mpr (List.nodup_dedup _)
  · intro m hm
    have hm' : df.temperature.min? = some m := hm
    exact ⟨List.min?_mem (fun a b => min_choice a b) hm',
      fun x hx => ((List.le_min?_iff (fun a b c => le_min_iff) hm').mp
        (le_refl m)) x hx⟩
  · intro m hm
    have hm' : df.temperature.max? = some m := hm
    exact ⟨List.max?_mem (fun a b => max_choice a b) hm',
      fun x hx => ((List.max?_le_iff (fun a b c => max_le_iff) hm').mp
        (le_refl m)) x hx⟩

/-- Witness for C8 at a concrete table: the frequency row `(rain, 2)` is
in the report, obtained through the characterising equivalence. -/
theorem analyze_data_spec_witness :
    ("rain", 2) ∈ (analyze_data twoWeekTable).2.weather_counts := by
  obtain ⟨-, -, -, -, -, -, hmem, -, -, -⟩ := analyze_data_spec twoWeekTable
  exact (hmem "rain" 2).mpr ⟨by decide, by decide⟩

/-! ## Claims C3, C4, C9, C10 -/

/-- Claim C3: running the rolling computation with window 1 leaves every
rolling standard deviation undefined (NaN), and consequently no position
is flagged an outlier. -/
theorem window_one_no_outliers (df : Table) :
    (calculate_rolling_stats df 1).rolling_var =
      some (List.replicate df.temperature.length none) ∧
    (calculate_rolling_stats df 1).is_outlier =
      some (List.replicate df.temperature.length false) := by
  constructor
  · show some (rollingVarCol df.temperature 1) = _
    rw [rollingVarCol, map_range_const (fun i _ => rollingVarAt_one df.temperature i)]
  · show some (isOutlierCol df.temperature 1) = _
    rw [isOutlierCol, map_range_const
      (fun i _ => isOutlierAt_of_var_none (rollingVarAt_one df.temperature i))]

/-- Claim C4: the rolling computation is idempotent — applying it a second
time with the same window to the already-enriched table recomputes exactly
the same three derived columns, because it reads only the untouched
`temperature` column and overwrites the derived ones. -/
theorem calculate_rolling_stats_idempotent (df : Table) (w : Nat) :
    calculate_rolling_stats (calculate_rolling_stats df w) w =
      calculate_rolling_stats df w := rfl

/-- Claim C9 counterexample: the weekly-average rendering operation does
mutate the consumed table — it writes the `week` column in place, so the
table afterwards differs from the table before. -/
theorem weekly_average_mutates_table_cex :
    (weekly_average_trends twoWeekTable).1 ≠ twoWeekTable := by decide

/-- Claim C9 (amended): the temperature/humidity line views, the
condition-proportion view and the rolling-statistics view leave the
consumed table unchanged; the weekly-average view leaves every column
except `week` unchanged, but writes the `week` column (the ISO week
number of each record's date) into the consumed table. -/
theorem presentation_frame_spec (df : Table) :
    (plot_rolling_stats df).1 = df ∧
    (visualize_data df).1 = df ∧
    (weekly_average_trends df).1.date = df.date ∧
    (weekly_average_trends df).1.temperature = df.temperature ∧
    (weekly_average_trends df).1.humidity = df.humidity ∧
    (weekly_average_trends df).1.weather = df.weather ∧
    (weekly_average_trends df).1.rolling_mean = df.rolling_mean ∧
    (weekly_average_trends df).1.rolling_var = df.rolling_var ∧
    (weekly_average_trends df).1.is_outlier = df.is_outlier ∧
    (weekly_average_trends df).1.week = some (df.date.map isoWeek) :=
  ⟨rfl, rfl, rfl, rfl, rfl, rfl, rfl, rfl, rfl, rfl⟩

/-- Claim C10: the rolling computation enriches the given table (writing
only the three derived columns, which all become present) and returns it
with every other column — `date`, `temperature`, `humidity`, `weather`,
and a pre-existing `week` — holding exactly its prior values in order. -/
theorem calculate_rolling_stats_frame (df : Table) (w : Nat) :
    (calculate_rolling_stats df w).date = df.date ∧
    (calculate_rolling_stats df w).temperature = df.temperature ∧
    (calculate_rolling_stats df w).humidity = df.humidity ∧
    (calculate_rolling_stats df w).weather = df.weather ∧
    (calculate_rolling_stats df w).week = df.week ∧
    (calculate_rolling_stats df w).rolling_mean.isSome = true ∧
    (calculate_rolling_stats df w).rolling_var.isSome = true ∧
    (calculate_rolling_stats df w).is_outlier.isSome = true :=
  ⟨rfl, rfl, rfl, rfl, rfl, rfl, rfl, rfl⟩

end Weather
